import Mathlib

/-!
Verification development for the audio-triggered autoscroll engine of the
song-buddy teleprompter.

The embedding models:

* the `useAudioMonitor` hook (audio service): RMS/decibel computation in
  `analyze`, the latching `triggered` flag, the arm/disarm effect keyed on
  `enabled`, and the asynchronous `getUserMedia` acquisition whose success
  or failure arrives later (`armSuccess` / `armFail` events);
* the `LiveMode` component: the `scroll` animation frame callback,
  `updateProgressBar`, `shouldMonitor = isMonitoring && !isScrolling`, the
  trigger effect, and the scroll-animation start/stop effect.

Numbers are modelled as rationals (reals for the logarithmic dB formula),
wall-clock timestamps as rationals in milliseconds.  React state updates
are explicit state passing; React effects run in a commit whenever their
dependency values differ from the values recorded at their previous run,
which is modelled by storing the recorded dependency values in the state
(`dep…` fields) and iterating `commitEffects` to a fixed point.
-/

/-- Geometry of the scrolling container; fixed during a live session.
Mirrors `scrollHeight` and `clientHeight` read from `containerRef`. -/
structure Viewport where
  scrollHeight : ℚ
  clientHeight : ℚ

/-- Maximum scroll extent of the viewport: `scrollHeight - clientHeight`. -/
def Viewport.maxOffset (vp : Viewport) : ℚ :=
  vp.scrollHeight - vp.clientHeight

/-- Browser clamping applied by the `scrollTop` setter: the stored offset is
kept within `[0, scrollHeight - clientHeight]`. -/
def clampTop (vp : Viewport) (x : ℚ) : ℚ :=
  max 0 (min vp.maxOffset x)

/-- Error message set by `startMonitoring`'s catch handler. -/
def micError : String := "Microphone access denied."

/-- State of one `LiveMode` session together with the `useAudioMonitor` hook
it instantiates.  The `dep…` fields record the dependency values each
`useEffect` saw at its previous run (React re-runs an effect only when a
dependency changed). -/
structure LiveState where
  /-- `isMonitoring` state: the user's standing arming request. -/
  isMonitoring : Bool
  /-- `isScrolling` state. -/
  isScrolling : Bool
  /-- `triggered` state of the hook. -/
  triggered : Bool
  /-- `currentDB` state of the hook. -/
  currentDB : ℚ
  /-- `error` state of the hook (`none` = no error). -/
  errorMsg : Option String
  /-- the `analyze` animation loop is active (device acquired, sampling). -/
  monitorRunning : Bool
  /-- a `getUserMedia` acquisition is in flight.  `stopMonitoring` cannot
  cancel the pending promise; only its resolution clears this. -/
  pendingStart : Bool
  /-- `containerRef.current.scrollTop`. -/
  scrollTop : ℚ
  /-- `lastFrameTime.current`; `0` is the sentinel for "unset". -/
  lastFrameTime : ℚ
  /-- `songRef.current.scrollspeed` (px/s), re-read by every frame. -/
  speed : ℚ
  /-- `thresholdDB` captured by the `analyze` closure that the memoized
  (empty-dependency `useCallback`) `startMonitoring` holds on to. -/
  threshold : ℚ
  /-- last `enabled` value the hook's arm/disarm effect ran with. -/
  depEnabled : Bool
  /-- last `triggered` value the trigger effect ran with. -/
  depTriggered : Bool
  /-- last `isScrolling` value the trigger effect ran with. -/
  depScrollingT : Bool
  /-- last `isScrolling` value the scroll-animation effect ran with. -/
  depScrollingA : Bool
deriving DecidableEq

/-- `shouldMonitor = isMonitoring && !isScrolling` from `LiveMode`. -/
def shouldMonitor (s : LiveState) : Bool :=
  s.isMonitoring && !s.isScrolling

/-- One React commit: each effect whose dependencies differ from its
recorded previous values runs, in registration order (the hook's arm/disarm
effect, the trigger effect, the scroll-animation effect).  All effects of
one commit read the same committed snapshot `s`; their write sets are
disjoint, so they are applied cumulatively.

* arm/disarm effect (deps `[enabled]`): the cleanup `stopMonitoring`
  cancels the `analyze` loop; then `startMonitoring` begins an acquisition
  when enabled, otherwise `triggered` and `currentDB` are reset.
* trigger effect (deps `[triggered, isScrolling]`):
  `if (triggered && !isScrolling) setIsScrolling(true)`.
* scroll-animation effect (deps `[isScrolling]`): on becoming true resets
  `lastFrameTime` to `0` and schedules frames; on becoming false cancels
  the pending frame (modelled by `tick` events requiring `isScrolling`). -/
def commitEffects (s : LiveState) : LiveState :=
  let en := shouldMonitor s
  let a :=
    if en = s.depEnabled then s
    else if en then
      { s with depEnabled := en, monitorRunning := false, pendingStart := true }
    else
      { s with depEnabled := en, monitorRunning := false,
               triggered := false, currentDB := -100 }
  let b :=
    if s.triggered = s.depTriggered ∧ s.isScrolling = s.depScrollingT then a
    else if s.triggered && !s.isScrolling then
      { a with depTriggered := s.triggered, depScrollingT := s.isScrolling,
               isScrolling := true }
    else
      { a with depTriggered := s.triggered, depScrollingT := s.isScrolling }
  if s.isScrolling = s.depScrollingA then b
  else if s.isScrolling then
    { b with depScrollingA := s.isScrolling, lastFrameTime := 0 }
  else
    { b with depScrollingA := s.isScrolling }

/-- Run commits until the effect cascade has settled.  Every cascade in
this system reaches a fixed point within three commits (set a flag → react
to the derived `enabled` flip → record dependencies); six applications give
comfortable margin, and `commitEffects` is the identity on fixed points. -/
def settleEffects (s : LiveState) : LiveState :=
  commitEffects (commitEffects (commitEffects
    (commitEffects (commitEffects (commitEffects s)))))

/-- Elapsed seconds the `scroll` callback computes for a frame at `time`:
`(time - lastFrameTime)/1000`, where an unset (`0`) `lastFrameTime` is
first initialised to `time`, making the delta zero. -/
def dtOf (s : LiveState) (time : ℚ) : ℚ :=
  (time - (if s.lastFrameTime = 0 then time else s.lastFrameTime)) / 1000

/-- The `scroll` animation-frame callback of `LiveMode` (state changes
only; the re-scheduling of frames is modelled by `tick` events requiring
`isScrolling`).  `moveAmount = scrollspeed * deltaTime`; the DOM is touched
only when `moveAmount > 0`, the browser clamps the written `scrollTop`, and
the end check `scrollTop + clientHeight >= scrollHeight - 1` stops the
scroll at the bottom. -/
def scrollFrame (vp : Viewport) (s : LiveState) (time : ℚ) : LiveState :=
  let deltaTime := dtOf s time
  let s := { s with lastFrameTime := time }
  let moveAmount := s.speed * deltaTime
  if 0 < moveAmount then
    let top := clampTop vp (s.scrollTop + moveAmount)
    let s := { s with scrollTop := top }
    if vp.scrollHeight - 1 ≤ top + vp.clientHeight then
      { s with isScrolling := false }
    else s
  else s

/-- External events driving a `LiveMode` session. -/
inductive Ev where
  /-- the in-flight `getUserMedia` resolves: the analyser is connected and
  `analyze` starts; `setError(null)`. -/
  | armSuccess
  /-- the in-flight `getUserMedia` rejects: the catch handler runs. -/
  | armFail
  /-- one `analyze` tick delivering a loudness of `db` decibels (only the
  running analyse loop produces samples). -/
  | sample (db : ℚ)
  /-- one scheduled animation frame of the scroll loop at timestamp
  `time` (frames are scheduled only while `isScrolling`). -/
  | tick (time : ℚ)
  /-- the play/pause button: `setIsScrolling(!isScrolling)`. -/
  | playPause
  /-- a tap on the screen: stops scrolling when active. -/
  | screenTap
  /-- the Arm button: `setIsMonitoring(true)`. -/
  | armBtn
  /-- the speed slider: `onUpdate` changes `song.scrollspeed`. -/
  | setSpeed (v : ℚ)
deriving DecidableEq

/-- Direct state change performed by an event's handler, before React
effects respond. -/
def primEv (vp : Viewport) (s : LiveState) : Ev → LiveState
  | .armSuccess =>
      if s.pendingStart then
        { s with pendingStart := false, monitorRunning := true, errorMsg := none }
      else s
  | .armFail =>
      if s.pendingStart then
        { s with pendingStart := false, errorMsg := some micError }
      else s
  | .sample db =>
      if s.monitorRunning then
        { s with currentDB := db,
                 triggered := if s.threshold < db then true else s.triggered }
      else s
  | .tick t => if s.isScrolling then scrollFrame vp s t else s
  | .playPause => { s with isScrolling := !s.isScrolling }
  | .screenTap => if s.isScrolling then { s with isScrolling := false } else s
  | .armBtn => { s with isMonitoring := true }
  | .setSpeed v => { s with speed := v }

/-- One full step: the event's handler followed by the React effect
cascade. -/
def stepEv (vp : Viewport) (s : LiveState) (e : Ev) : LiveState :=
  settleEffects (primEv vp s e)

/-- Fold a list of events over a state. -/
def runEvents (vp : Viewport) (s : LiveState) (l : List Ev) : LiveState :=
  l.foldl (stepEv vp) s

/-- The state right after `LiveMode` mounts with a song whose trigger
threshold is `t0` and scroll speed is `sp0`, once the mount-time effects
have run: `isMonitoring` starts `true`, so the monitor effect immediately
calls `startMonitoring` (an acquisition is pending), and every effect has
recorded its mount dependencies. -/
def initLive (t0 sp0 : ℚ) : LiveState :=
  { isMonitoring := true
    isScrolling := false
    triggered := false
    currentDB := -100
    errorMsg := none
    monitorRunning := false
    pendingStart := true
    scrollTop := 0
    lastFrameTime := 0
    speed := sp0
    threshold := t0
    depEnabled := true
    depTriggered := false
    depScrollingT := false
    depScrollingA := false }

/-- `updateProgressBar`'s progress percentage: `scrollTop / maxScroll * 100`
(meaningful when `maxScroll > 0`). -/
def progressOf (vp : Viewport) (top : ℚ) : ℚ :=
  top / vp.maxOffset * 100

/-- `updateProgressBar`'s remaining percentage, the rendered bar height:
`100 - min 100 (max 0 progress)`. -/
def remainingOf (vp : Viewport) (top : ℚ) : ℚ :=
  100 - min 100 (max 0 (progressOf vp top))

/-! ### The `useAudioMonitor` hook in isolation

For the hook-level claims (the latching trigger and the threshold capture)
we embed the hook by itself, with the caller's `enabled` and `thresholdDB`
props as explicit inputs.  `startMonitoring` is memoized with an empty
dependency list, so the `analyze` closure it invokes — and the
`thresholdDB` that closure compares against — is the one from the hook's
first render (`threshCaptured`); later renders never replace it because
the self-rescheduling `requestAnimationFrame(analyze)` loop keeps calling
the same closure. -/

/-- State of one mounted `useAudioMonitor` hook. -/
structure MonitorHook where
  /-- current `enabled` prop value. -/
  enabled : Bool
  /-- current `thresholdDB` prop value. -/
  threshProp : ℚ
  /-- `thresholdDB` captured by the first render's `analyze` closure, the
  one the memoized `startMonitoring` starts. -/
  threshCaptured : ℚ
  /-- the `analyze` loop is active. -/
  running : Bool
  /-- a `getUserMedia` acquisition is in flight. -/
  pending : Bool
  /-- `triggered` state. -/
  triggered : Bool
  /-- `currentDB` state. -/
  currentDB : ℚ
  /-- `error` state. -/
  errorMsg : Option String
  /-- last `enabled` value the arm/disarm effect ran with. -/
  depEnabled : Bool
deriving DecidableEq

/-- Events of a mounted hook. -/
inductive HookEv where
  /-- the caller re-renders with a new `enabled` prop. -/
  | setEnabled (b : Bool)
  /-- the caller re-renders with a new `thresholdDB` prop. -/
  | setThreshold (q : ℚ)
  /-- the in-flight `getUserMedia` resolves. -/
  | armSuccess
  /-- the in-flight `getUserMedia` rejects. -/
  | armFail
  /-- one `analyze` tick delivering `db` decibels. -/
  | sample (db : ℚ)
deriving DecidableEq

/-- The hook's `useEffect` (deps `[enabled, startMonitoring,
stopMonitoring]`; the two callbacks are referentially stable, so
effectively `[enabled]`): when the recorded dependency differs, the
cleanup `stopMonitoring` cancels the `analyze` loop, then either
`startMonitoring` begins an acquisition or the disarm branch resets
`triggered` and `currentDB`. -/
def hookEffect (h : MonitorHook) : MonitorHook :=
  if h.enabled = h.depEnabled then h
  else if h.enabled then
    { h with depEnabled := h.enabled, running := false, pending := true }
  else
    { h with depEnabled := h.enabled, running := false,
             triggered := false, currentDB := -100 }

/-- One hook event: the direct change followed by the effect response
(prop changes re-render; acquisition results and samples do not change the
effect's dependency, so the effect is skipped for them and is applied here
as the identity via the unchanged-dependency branch). -/
def stepHook (h : MonitorHook) : HookEv → MonitorHook
  | .setEnabled b => hookEffect { h with enabled := b }
  | .setThreshold q => hookEffect { h with threshProp := q }
  | .armSuccess =>
      if h.pending then
        { h with pending := false, running := true, errorMsg := none }
      else h
  | .armFail =>
      if h.pending then
        { h with pending := false, errorMsg := some micError }
      else h
  | .sample db =>
      if h.running then
        { h with currentDB := db,
                 triggered := if h.threshCaptured < db then true else h.triggered }
      else h

/-- Fold hook events. -/
def runHook (h : MonitorHook) (l : List HookEv) : MonitorHook :=
  l.foldl stepHook h

/-- Deliver a list of loudness samples. -/
def runSamples (h : MonitorHook) (l : List ℚ) : MonitorHook :=
  l.foldl (fun a d => stepHook a (HookEv.sample d)) h

/-- The hook right after mounting with props `en` and `t0`, mount effects
applied: the first render's `analyze` closure captured `t0`. -/
def initHook (en : Bool) (t0 : ℚ) : MonitorHook :=
  { enabled := en
    threshProp := t0
    threshCaptured := t0
    running := false
    pending := en
    triggered := false
    currentDB := -100
    errorMsg := none
    depEnabled := en }

/-! ### The decibel computation of `analyze`

`analyze` reads a buffer of raw time-domain samples, computes
`rms = sqrt(sumSquares / bufferLength)` and
`db = 20 * log10(max(rms, 1e-7))`. -/

/-- Loudness in decibels that `analyze` computes from a raw sample
buffer. -/
noncomputable def analyzeDb (buf : List ℝ) : ℝ :=
  let sumSquares := (buf.map (fun x => x * x)).sum
  let rms := Real.sqrt (sumSquares / (buf.length : ℝ))
  20 * Real.logb 10 (max rms 1e-7)

/-! ### Basic lemmas about the effect commit -/

theorem commitEffects_scrollTop (s : LiveState) :
    (commitEffects s).scrollTop = s.scrollTop := by
  simp only [commitEffects]
  split_ifs <;> rfl

theorem commitEffects_speed (s : LiveState) :
    (commitEffects s).speed = s.speed := by
  simp only [commitEffects]
  split_ifs <;> rfl

theorem commitEffects_errorMsg (s : LiveState) :
    (commitEffects s).errorMsg = s.errorMsg := by
  simp only [commitEffects]
  split_ifs <;> rfl

theorem commitEffects_isMonitoring (s : LiveState) :
    (commitEffects s).isMonitoring = s.isMonitoring := by
  simp only [commitEffects]
  split_ifs <;> rfl

theorem commitEffects_depScrollingA (s : LiveState) :
    (commitEffects s).depScrollingA = s.isScrolling := by
  simp only [commitEffects]
  split_ifs <;> simp_all

theorem commitEffects_triggered_false (s : LiveState)
    (h : s.triggered = false) : (commitEffects s).triggered = false := by
  simp only [commitEffects]
  split_ifs <;> simp_all

theorem commitEffects_keepScroll (s : LiveState) (h : s.triggered = false) :
    (commitEffects s).triggered = false ∧
    (commitEffects s).isScrolling = s.isScrolling := by
  simp only [commitEffects]
  split_ifs <;> simp_all

theorem commitEffects_isScrolling_true (s : LiveState)
    (h : s.isScrolling = true) : (commitEffects s).isScrolling = true := by
  simp only [commitEffects]
  split_ifs <;> simp_all

theorem commitEffects_monitorRunning_false (s : LiveState)
    (h : s.monitorRunning = false) :
    (commitEffects s).monitorRunning = false := by
  simp only [commitEffects]
  split_ifs <;> simp_all

theorem commitEffects_pendingStart_true (s : LiveState)
    (h : s.pendingStart = true) : (commitEffects s).pendingStart = true := by
  simp only [commitEffects]
  split_ifs <;> simp_all

theorem commitEffects_pendingStart_set (s : LiveState)
    (h1 : shouldMonitor s = true) (h2 : s.depEnabled = false) :
    (commitEffects s).pendingStart = true := by
  simp only [commitEffects]
  split_ifs <;> simp_all

theorem commitEffects_lastFrameTime_zero (s : LiveState)
    (h1 : s.isScrolling = true) (h2 : s.depScrollingA = false) :
    (commitEffects s).lastFrameTime = 0 := by
  simp only [commitEffects]
  split_ifs <;> simp_all

theorem commitEffects_stableA (s : LiveState) (ht : s.triggered = false)
    (hd : s.isScrolling = s.depScrollingA) :
    (commitEffects s).lastFrameTime = s.lastFrameTime ∧
    (commitEffects s).triggered = false ∧
    (commitEffects s).isScrolling = s.isScrolling ∧
    (commitEffects s).depScrollingA = s.isScrolling := by
  simp only [commitEffects]
  split_ifs <;> simp_all

/-! ### The same facts after a settled effect cascade -/

theorem settleEffects_scrollTop (s : LiveState) :
    (settleEffects s).scrollTop = s.scrollTop := by
  simp [settleEffects, commitEffects_scrollTop]

theorem settleEffects_speed (s : LiveState) :
    (settleEffects s).speed = s.speed := by
  simp [settleEffects, commitEffects_speed]

theorem settleEffects_errorMsg (s : LiveState) :
    (settleEffects s).errorMsg = s.errorMsg := by
  simp [settleEffects, commitEffects_errorMsg]

theorem settleEffects_isMonitoring (s : LiveState) :
    (settleEffects s).isMonitoring = s.isMonitoring := by
  simp [settleEffects, commitEffects_isMonitoring]

theorem settleEffects_keepScroll (s : LiveState) (h : s.triggered = false) :
    (settleEffects s).triggered = false ∧
    (settleEffects s).isScrolling = s.isScrolling := by
  unfold settleEffects
  obtain ⟨t1, i1⟩ := commitEffects_keepScroll s h
  obtain ⟨t2, i2⟩ := commitEffects_keepScroll _ t1
  obtain ⟨t3, i3⟩ := commitEffects_keepScroll _ t2
  obtain ⟨t4, i4⟩ := commitEffects_keepScroll _ t3
  obtain ⟨t5, i5⟩ := commitEffects_keepScroll _ t4
  obtain ⟨t6, i6⟩ := commitEffects_keepScroll _ t5
  exact ⟨t6, by rw [i6, i5, i4, i3, i2, i1]⟩

theorem settleEffects_isScrolling_true (s : LiveState)
    (h : s.isScrolling = true) : (settleEffects s).isScrolling = true := by
  unfold settleEffects
  exact commitEffects_isScrolling_true _ (commitEffects_isScrolling_true _
    (commitEffects_isScrolling_true _ (commitEffects_isScrolling_true _
      (commitEffects_isScrolling_true _ (commitEffects_isScrolling_true _ h)))))

theorem settleEffects_monitorRunning_false (s : LiveState)
    (h : s.monitorRunning = false) :
    (settleEffects s).monitorRunning = false := by
  unfold settleEffects
  exact commitEffects_monitorRunning_false _ (commitEffects_monitorRunning_false _
    (commitEffects_monitorRunning_false _ (commitEffects_monitorRunning_false _
      (commitEffects_monitorRunning_false _ (commitEffects_monitorRunning_false _ h)))))

theorem settleEffects_pendingStart_of (s : LiveState)
    (h1 : shouldMonitor s = true) (h2 : s.depEnabled = false) :
    (settleEffects s).pendingStart = true := by
  unfold settleEffects
  exact commitEffects_pendingStart_true _ (commitEffects_pendingStart_true _
    (commitEffects_pendingStart_true _ (commitEffects_pendingStart_true _
      (commitEffects_pendingStart_true _ (commitEffects_pendingStart_set s h1 h2)))))

theorem settleEffects_lastFrameTime_zero (s : LiveState)
    (ht : s.triggered = false) (h1 : s.isScrolling = true)
    (h2 : s.depScrollingA = false) :
    (settleEffects s).lastFrameTime = 0 := by
  unfold settleEffects
  have e1 : (commitEffects s).lastFrameTime = 0 :=
    commitEffects_lastFrameTime_zero s h1 h2
  have t1 : (commitEffects s).triggered = false :=
    commitEffects_triggered_false s ht
  have i1 : (commitEffects s).isScrolling = true :=
    commitEffects_isScrolling_true s h1
  have d1 : (commitEffects s).depScrollingA = true := by
    rw [commitEffects_depScrollingA]; exact h1
  obtain ⟨e2, t2, i2, d2⟩ := commitEffects_stableA _ t1 (by rw [i1, d1])
  obtain ⟨e3, t3, i3, d3⟩ := commitEffects_stableA _ t2 (by rw [i2, d2])
  obtain ⟨e4, t4, i4, d4⟩ := commitEffects_stableA _ t3 (by rw [i3, d3])
  obtain ⟨e5, t5, i5, d5⟩ := commitEffects_stableA _ t4 (by rw [i4, d4])
  obtain ⟨e6, t6, i6, d6⟩ := commitEffects_stableA _ t5 (by rw [i5, d5])
  rw [e6, e5, e4, e3, e2, e1]

/-! ### Per-frame facts about the `scroll` callback -/

theorem scrollFrame_scrollTop_eq (vp : Viewport) (s : LiveState) (t : ℚ)
    (hs : 0 < s.speed) (h0 : 0 ≤ s.scrollTop) (h1 : s.scrollTop ≤ vp.maxOffset)
    (hdt : 0 ≤ dtOf s t) :
    (scrollFrame vp s t).scrollTop
      = min vp.maxOffset (s.scrollTop + s.speed * dtOf s t) := by
  have hmv : 0 ≤ s.speed * dtOf s t := mul_nonneg hs.le hdt
  simp only [scrollFrame]
  split_ifs with hpos hend
  · show clampTop vp (s.scrollTop + s.speed * dtOf s t) = _
    unfold clampTop
    exact max_eq_right (le_min (h0.trans h1) (add_nonneg h0 hmv))
  · show clampTop vp (s.scrollTop + s.speed * dtOf s t) = _
    unfold clampTop
    exact max_eq_right (le_min (h0.trans h1) (add_nonneg h0 hmv))
  · have hz : s.speed * dtOf s t = 0 := le_antisymm (not_lt.mp hpos) hmv
    show s.scrollTop = _
    rw [hz, add_zero, min_eq_right h1]

theorem scrollFrame_first_tick (vp : Viewport) (s : LiveState) (t : ℚ)
    (h : s.lastFrameTime = 0) :
    (scrollFrame vp s t).scrollTop = s.scrollTop := by
  have hd : dtOf s t = 0 := by simp [dtOf, h]
  simp only [scrollFrame, hd, mul_zero, lt_irrefl, if_false]

theorem scrollFrame_stop_iff (vp : Viewport) (s : LiveState) (t : ℚ)
    (hscroll : s.isScrolling = true) (hmv : 0 < s.speed * dtOf s t) :
    ((scrollFrame vp s t).isScrolling = false
      ↔ vp.maxOffset - (scrollFrame vp s t).scrollTop ≤ 1) := by
  simp only [scrollFrame, if_pos hmv]
  split_ifs with hend
  · exact iff_of_true rfl (by unfold Viewport.maxOffset; linarith)
  · refine iff_of_false (by simp [hscroll]) ?_
    push_neg at hend
    unfold Viewport.maxOffset
    intro hc
    have := hend
    linarith

theorem scrollFrame_scrollTop_mono (vp : Viewport) (s : LiveState) (t : ℚ)
    (_h0 : 0 ≤ s.scrollTop) (h1 : s.scrollTop ≤ vp.maxOffset) :
    s.scrollTop ≤ (scrollFrame vp s t).scrollTop := by
  simp only [scrollFrame]
  split_ifs with hpos hend
  · show s.scrollTop ≤ clampTop vp (s.scrollTop + s.speed * dtOf s t)
    unfold clampTop
    exact le_max_of_le_right (le_min h1 (by linarith))
  · show s.scrollTop ≤ clampTop vp (s.scrollTop + s.speed * dtOf s t)
    unfold clampTop
    exact le_max_of_le_right (le_min h1 (by linarith))
  · exact le_refl _

theorem progressOf_mono (vp : Viewport) (a b : ℚ) (hm : 0 < vp.maxOffset)
    (hab : a ≤ b) : progressOf vp a ≤ progressOf vp b := by
  unfold progressOf
  gcongr

theorem remainingOf_anti (vp : Viewport) (a b : ℚ) (hm : 0 < vp.maxOffset)
    (hab : a ≤ b) : remainingOf vp b ≤ remainingOf vp a := by
  unfold remainingOf
  have := progressOf_mono vp a b hm hab
  gcongr

/-! ### Facts about the hook's sample processing -/

theorem stepHook_sample_running (h : MonitorHook) (d : ℚ) :
    (stepHook h (HookEv.sample d)).running = h.running := by
  simp only [stepHook]
  split_ifs <;> rfl

theorem stepHook_sample_threshCaptured (h : MonitorHook) (d : ℚ) :
    (stepHook h (HookEv.sample d)).threshCaptured = h.threshCaptured := by
  simp only [stepHook]
  split_ifs <;> rfl

theorem stepHook_sample_triggered_mono (h : MonitorHook) (d : ℚ)
    (ht : h.triggered = true) :
    (stepHook h (HookEv.sample d)).triggered = true := by
  simp only [stepHook]
  split_ifs <;> simp_all

theorem stepHook_sample_crossing (h : MonitorHook) (d : ℚ)
    (hr : h.running = true) (hd : h.threshCaptured < d) :
    (stepHook h (HookEv.sample d)).triggered = true := by
  simp only [stepHook, if_pos hr]
  simp [if_pos hd]

theorem stepHook_sample_no_crossing (h : MonitorHook) (d : ℚ)
    (ht : h.triggered = false) (hd : ¬ h.threshCaptured < d) :
    (stepHook h (HookEv.sample d)).triggered = false := by
  simp only [stepHook]
  split_ifs <;> simp_all

theorem runSamples_cons (h : MonitorHook) (d : ℚ) (l : List ℚ) :
    runSamples h (d :: l) = runSamples (stepHook h (HookEv.sample d)) l := by
  simp [runSamples]

theorem runSamples_append (h : MonitorHook) (l₁ l₂ : List ℚ) :
    runSamples h (l₁ ++ l₂) = runSamples (runSamples h l₁) l₂ := by
  simp [runSamples, List.foldl_append]

theorem runSamples_triggered_mono (h : MonitorHook) (l : List ℚ)
    (ht : h.triggered = true) : (runSamples h l).triggered = true := by
  induction l generalizing h with
  | nil => exact ht
  | cons d l ih =>
      rw [runSamples_cons]
      exact ih _ (stepHook_sample_triggered_mono h d ht)

theorem runSamples_crossing (h : MonitorHook) (l : List ℚ)
    (hr : h.running = true) (hx : ∃ d ∈ l, h.threshCaptured < d) :
    (runSamples h l).triggered = true := by
  induction l generalizing h with
  | nil => exact absurd hx (by simp)
  | cons a l ih =>
      rw [runSamples_cons]
      obtain ⟨d, hd, hlt⟩ := hx
      rcases List.mem_cons.mp hd with rfl | hmem
      · exact runSamples_triggered_mono _ l (stepHook_sample_crossing h d hr hlt)
      · exact ih _ (by rw [stepHook_sample_running]; exact hr)
          ⟨d, hmem, by rw [stepHook_sample_threshCaptured]; exact hlt⟩

theorem runSamples_no_crossing (h : MonitorHook) (l : List ℚ)
    (ht : h.triggered = false) (hx : ∀ d ∈ l, ¬ h.threshCaptured < d) :
    (runSamples h l).triggered = false := by
  induction l generalizing h with
  | nil => exact ht
  | cons a l ih =>
      rw [runSamples_cons]
      refine ih _ (stepHook_sample_no_crossing h a ht (hx a (by simp))) ?_
      intro d hd
      rw [stepHook_sample_threshCaptured]
      exact hx d (List.mem_cons_of_mem a hd)

/-! ### Claim theorems -/

/-- C1: the trigger flag is latching.  While the hook is armed and sampling,
once a sample exceeds the session's threshold the flag is true after every
subsequent sample; no event other than disarming (`setEnabled false`)
clears a set flag; disarming clears it; and with no crossing the flag
stays false across any sample sequence (so after re-arming it remains
false until a new crossing). -/
theorem trigger_latching_until_disarm :
    (∀ (h : MonitorHook) (l₁ l₂ : List ℚ), h.running = true →
        (∃ d ∈ l₁, h.threshCaptured < d) →
        (runSamples h (l₁ ++ l₂)).triggered = true) ∧
    (∀ (h : MonitorHook) (e : HookEv), h.triggered = true →
        h.enabled = h.depEnabled → e ≠ HookEv.setEnabled false →
        (stepHook h e).triggered = true) ∧
    (∀ h : MonitorHook, h.depEnabled = true →
        (stepHook h (HookEv.setEnabled false)).triggered = false) ∧
    (∀ (h : MonitorHook) (l : List ℚ), h.triggered = false →
        (∀ d ∈ l, ¬ h.threshCaptured < d) →
        (runSamples h l).triggered = false) := by
  refine ⟨?_, ?_, ?_, ?_⟩
  · intro h l₁ l₂ hr hx
    rw [runSamples_append]
    exact runSamples_triggered_mono _ _ (runSamples_crossing h l₁ hr hx)
  · intro h e ht hs hne
    cases e with
    | setEnabled b =>
        cases b
        · exact absurd rfl hne
        · simp only [stepHook, hookEffect]
          split_ifs <;> simp_all
    | setThreshold q =>
        simp only [stepHook, hookEffect]
        split_ifs <;> simp_all
    | armSuccess =>
        simp only [stepHook]
        split_ifs <;> simp_all
    | armFail =>
        simp only [stepHook]
        split_ifs <;> simp_all
    | sample d => exact stepHook_sample_triggered_mono h d ht
  · intro h hd
    simp only [stepHook, hookEffect]
    split_ifs <;> simp_all
  · exact runSamples_no_crossing

/-- Witness for C1 at concrete inputs: threshold −35 dB, a crossing sample
−30 followed by quieter samples keeps the flag true; a set flag survives a
further quiet sample; disarming clears it; quiet samples alone never set
it. -/
theorem trigger_latching_until_disarm_witness :
    (runSamples (stepHook (initHook true (-35)) HookEv.armSuccess)
        ([-30] ++ [-50, -45])).triggered = true ∧
    (stepHook ⟨true, -35, -35, true, false, true, -30, none, true⟩
        (HookEv.sample (-50))).triggered = true ∧
    (stepHook ⟨true, -35, -35, true, false, true, -30, none, true⟩
        (HookEv.setEnabled false)).triggered = false ∧
    (runSamples (stepHook (initHook true (-35)) HookEv.armSuccess)
        [-50, -45]).triggered = false := by
  obtain ⟨p1, p2, p3, p4⟩ := trigger_latching_until_disarm
  exact ⟨p1 _ [-30] [-50, -45] (by decide) ⟨-30, by decide, by decide⟩,
    p2 _ (HookEv.sample (-50)) rfl rfl (by decide),
    p3 _ rfl,
    p4 _ [-50, -45] (by decide) (by decide)⟩

/-- C2: the loudness `analyze` emits is
`20 * log10(max(sqrt(mean(sample²)), 1e-7))`; it is bounded below by
`20 * log10(1e-7)` for every buffer, and for an all-zero (silent) buffer
it equals exactly `20 * log10(1e-7)` — the epsilon floor prevents the
`-Infinity` that `log10(0)` would give. -/
theorem analyze_db_silent_floor (buf : List ℝ) :
    20 * Real.logb 10 1e-7 ≤ analyzeDb buf ∧
    ((∀ x ∈ buf, x = 0) → analyzeDb buf = 20 * Real.logb 10 1e-7) := by
  have heps : (0 : ℝ) < 1e-7 := by norm_num
  constructor
  · have hle : Real.logb 10 1e-7 ≤ Real.logb 10
        (max (Real.sqrt ((buf.map fun x => x * x).sum / (buf.length : ℝ))) 1e-7) :=
      Real.logb_le_logb_of_le (by norm_num) heps (le_max_right _ _)
    simpa only [analyzeDb] using
      mul_le_mul_of_nonneg_left hle (by norm_num : (0 : ℝ) ≤ 20)
  · intro hz
    have hsum : (buf.map fun x => x * x).sum = 0 := by
      apply List.sum_eq_zero
      intro y hy
      obtain ⟨x, hx, rfl⟩ := List.mem_map.mp hy
      rw [hz x hx, mul_zero]
    simp only [analyzeDb, hsum, zero_div, Real.sqrt_zero, max_eq_right heps.le]

/-- Witness for C2 at the concrete silent buffer `[0]`. -/
theorem analyze_db_silent_floor_witness :
    analyzeDb [0] = 20 * Real.logb 10 1e-7 ∧
    20 * Real.logb 10 1e-7 ≤ analyzeDb [0] := by
  have T := analyze_db_silent_floor [0]
  exact ⟨T.2 (by intro x hx; simpa using hx), T.1⟩


/-- C3: on a scroll tick with speed > 0, in-range offset and a
non-negative frame delta, `moveAmount = speed * dt` and the new offset is
`min(maxOffset, previousOffset + moveAmount)`; when `lastFrameTime` is
unset — which is how the tick right after entering Scrolling finds it —
`dt` is zero and the offset is unchanged; and entering Scrolling (also
after a pause) resets `lastFrameTime` to the unset sentinel. -/
theorem scroll_tick_offset_formula (vp : Viewport) (s : LiveState) (t : ℚ)
    (hs : 0 < s.speed) (h0 : 0 ≤ s.scrollTop) (h1 : s.scrollTop ≤ vp.maxOffset)
    (hdt : 0 ≤ dtOf s t) :
    (scrollFrame vp s t).scrollTop
      = min vp.maxOffset (s.scrollTop + s.speed * dtOf s t) ∧
    (s.lastFrameTime = 0 → (scrollFrame vp s t).scrollTop = s.scrollTop) ∧
    (∀ s₀ : LiveState, s₀.triggered = false → s₀.isScrolling = false →
        s₀.depScrollingA = false →
        (stepEv vp s₀ Ev.playPause).lastFrameTime = 0) := by
  refine ⟨scrollFrame_scrollTop_eq vp s t hs h0 h1 hdt,
    fun h => scrollFrame_first_tick vp s t h, ?_⟩
  intro s₀ ht hsc hda
  show (settleEffects (primEv vp s₀ Ev.playPause)).lastFrameTime = 0
  simp only [primEv]
  exact settleEffects_lastFrameTime_zero _ ht (by simp [hsc]) hda

/-- Witness for C3: a 1-second frame at 30 px/s from offset 1 in a
viewport with maximum extent 3 lands at `min 3 31 = 3`. -/
theorem scroll_tick_offset_formula_witness :
    (scrollFrame ⟨103, 100⟩
      ⟨true, true, false, -100, none, false, false, 1, 1000, 30, -35,
        false, false, true, true⟩ 2000).scrollTop = 3 := by
  have T := scroll_tick_offset_formula ⟨103, 100⟩
    ⟨true, true, false, -100, none, false, false, 1, 1000, 30, -35,
      false, false, true, true⟩ 2000
    (by norm_num) (by norm_num) (by norm_num [Viewport.maxOffset])
    (by norm_num [dtOf])
  rw [T.1]
  norm_num [dtOf, Viewport.maxOffset, min_def]

/-- C4 (amended): on a tick that actually moves (`moveAmount > 0`) the
state leaves Scrolling exactly when the post-move offset is within 1 unit
of the maximum scroll extent; the transition cancels further ticks, but it
is not terminal — the code has no distinct Finished state, so a manual
start or a fresh audio trigger (the monitor re-arms once scrolling stops)
re-enters Scrolling from the bottom and can advance the offset further
(see the counterexample). -/
theorem scroll_finish_exactly_within_one (vp : Viewport) (s : LiveState)
    (t : ℚ) (hscroll : s.isScrolling = true)
    (hmv : 0 < s.speed * dtOf s t) :
    ((scrollFrame vp s t).isScrolling = false
      ↔ vp.maxOffset - (scrollFrame vp s t).scrollTop ≤ 1) :=
  scrollFrame_stop_iff vp s t hscroll hmv

/-- Witness for C4 (amended): a moving tick from offset 3/2 at speed 1
lands at 5/2 in a viewport of maximum extent 3 and stops there, in
agreement with the within-1 criterion. -/
theorem scroll_finish_exactly_within_one_witness :
    ((scrollFrame ⟨103, 100⟩
        ⟨true, true, false, -100, none, false, false, 3/2, 1000, 1, -35,
          false, false, true, true⟩ 2000).isScrolling = false
      ↔ Viewport.maxOffset ⟨103, 100⟩ - (scrollFrame ⟨103, 100⟩
        ⟨true, true, false, -100, none, false, false, 3/2, 1000, 1, -35,
          false, false, true, true⟩ 2000).scrollTop ≤ 1) :=
  scroll_finish_exactly_within_one ⟨103, 100⟩ _ 2000 rfl (by norm_num [dtOf])

/-- C9: a scroll tick never moves an in-range offset backwards, and with a
positive maximum extent the progress percentage is non-decreasing (the
remaining percentage non-increasing) across the tick. -/
theorem offset_progress_monotone (vp : Viewport) (s : LiveState) (t : ℚ)
    (h0 : 0 ≤ s.scrollTop) (h1 : s.scrollTop ≤ vp.maxOffset) :
    s.scrollTop ≤ (scrollFrame vp s t).scrollTop ∧
    (0 < vp.maxOffset →
      progressOf vp s.scrollTop ≤ progressOf vp (scrollFrame vp s t).scrollTop ∧
      remainingOf vp (scrollFrame vp s t).scrollTop
        ≤ remainingOf vp s.scrollTop) := by
  have hm := scrollFrame_scrollTop_mono vp s t h0 h1
  exact ⟨hm, fun hp => ⟨progressOf_mono vp _ _ hp hm,
    remainingOf_anti vp _ _ hp hm⟩⟩

/-- Witness for C9 at a concrete moving tick. -/
theorem offset_progress_monotone_witness :
    1 ≤ (scrollFrame ⟨103, 100⟩
      ⟨true, true, false, -100, none, false, false, 1, 1000, 30, -35,
        false, false, true, true⟩ 2000).scrollTop ∧
    (0 < Viewport.maxOffset ⟨103, 100⟩ →
      progressOf ⟨103, 100⟩ 1 ≤ progressOf ⟨103, 100⟩ (scrollFrame ⟨103, 100⟩
        ⟨true, true, false, -100, none, false, false, 1, 1000, 30, -35,
          false, false, true, true⟩ 2000).scrollTop ∧
      remainingOf ⟨103, 100⟩ (scrollFrame ⟨103, 100⟩
        ⟨true, true, false, -100, none, false, false, 1, 1000, 30, -35,
          false, false, true, true⟩ 2000).scrollTop
        ≤ remainingOf ⟨103, 100⟩ 1) :=
  offset_progress_monotone ⟨103, 100⟩ _ 2000 (by norm_num)
    (by norm_num [Viewport.maxOffset])

/-! ### A concrete session used by several counterexamples

Threshold −35 dB, scroll speed 1 px/s, a viewport whose maximum scroll
extent is 3 px.  The literals below are the session's successive states;
each `trace…` lemma evaluates one event step. -/

/-- The viewport of the concrete session. -/
def vp103 : Viewport := ⟨103, 100⟩

/-- State after the mount-time acquisition succeeds: armed and sampling. -/
def liveArmed : LiveState :=
  ⟨true, false, false, -100, none, true, false, 0, 0, 1, -35,
    true, false, false, false⟩

/-- State after a −30 dB sample: the trigger effect started scrolling and
the monitor effect disarmed the hook again. -/
def liveScrolling : LiveState :=
  ⟨true, true, false, -100, none, false, false, 0, 0, 1, -35,
    false, false, true, true⟩

/-- State after the first frame (timestamp 1000 ms): the unset
`lastFrameTime` makes the delta zero, nothing moves. -/
def liveTicked : LiveState :=
  ⟨true, true, false, -100, none, false, false, 0, 1000, 1, -35,
    false, false, true, true⟩

/-- State after the second frame (timestamp 3000 ms): the offset reaches
2, which is within 1 px of the maximum extent 3, so scrolling stops — and
`shouldMonitor` flips back, so a fresh acquisition is immediately
requested. -/
def liveFinished : LiveState :=
  ⟨true, false, false, -100, none, false, true, 2, 3000, 1, -35,
    true, false, false, false⟩

/-- State after that acquisition succeeds: sampling again at the bottom. -/
def liveRearmed : LiveState :=
  ⟨true, false, false, -100, none, true, false, 2, 3000, 1, -35,
    true, false, false, false⟩

/-- State after a −20 dB sample at the bottom: scrolling restarted. -/
def liveRestarted : LiveState :=
  ⟨true, true, false, -100, none, false, false, 2, 0, 1, -35,
    false, false, true, true⟩

/-- State after the next frame (4000 ms): delta zero again. -/
def liveTicked2 : LiveState :=
  ⟨true, true, false, -100, none, false, false, 2, 4000, 1, -35,
    false, false, true, true⟩

/-- State after the final frame (5000 ms): the offset advanced from 2 to
3 — past the point where the session had already "finished". -/
def liveDone : LiveState :=
  ⟨true, false, false, -100, none, false, true, 3, 5000, 1, -35,
    true, false, false, false⟩

theorem trace_arm :
    stepEv vp103 (initLive (-35) 1) Ev.armSuccess = liveArmed := by decide

theorem trace_trigger :
    stepEv vp103 liveArmed (Ev.sample (-30)) = liveScrolling := by decide

theorem trace_tick1 :
    stepEv vp103 liveScrolling (Ev.tick 1000) = liveTicked := by
  norm_num [stepEv, primEv, settleEffects, commitEffects, scrollFrame, dtOf,
    clampTop, shouldMonitor, vp103, liveScrolling, liveTicked,
    Viewport.maxOffset, min_def, max_def]

theorem trace_tick2 :
    stepEv vp103 liveTicked (Ev.tick 3000) = liveFinished := by
  norm_num [stepEv, primEv, settleEffects, commitEffects, scrollFrame, dtOf,
    clampTop, shouldMonitor, vp103, liveTicked, liveFinished,
    Viewport.maxOffset, min_def, max_def]

theorem trace_rearm :
    stepEv vp103 liveFinished Ev.armSuccess = liveRearmed := by decide

theorem trace_retrigger :
    stepEv vp103 liveRearmed (Ev.sample (-20)) = liveRestarted := by decide

theorem trace_tick3 :
    stepEv vp103 liveRestarted (Ev.tick 4000) = liveTicked2 := by
  norm_num [stepEv, primEv, settleEffects, commitEffects, scrollFrame, dtOf,
    clampTop, shouldMonitor, vp103, liveRestarted, liveTicked2,
    Viewport.maxOffset, min_def, max_def]

theorem trace_tick4 :
    stepEv vp103 liveTicked2 (Ev.tick 5000) = liveDone := by
  norm_num [stepEv, primEv, settleEffects, commitEffects, scrollFrame, dtOf,
    clampTop, shouldMonitor, vp103, liveTicked2, liveDone,
    Viewport.maxOffset, min_def, max_def]

/-- Counterexample to C4 as stated: the session reaches the "finished"
situation (scroll stopped within 1 px of the maximum extent, at offset 2),
yet afterwards — with no manual interaction at all — the re-armed monitor
picks up a loud sample, scrolling re-enters, and further ticks advance the
offset from 2 to 3.  The Scrolling→stopped transition is therefore not
terminal. -/
theorem finished_not_terminal_cex :
    runEvents vp103 (initLive (-35) 1)
        [Ev.armSuccess, Ev.sample (-30), Ev.tick 1000, Ev.tick 3000]
      = liveFinished ∧
    liveFinished.isScrolling = false ∧
    vp103.maxOffset - liveFinished.scrollTop ≤ 1 ∧
    runEvents vp103 liveFinished
        [Ev.armSuccess, Ev.sample (-20), Ev.tick 4000, Ev.tick 5000]
      = liveDone ∧
    liveFinished.scrollTop < liveDone.scrollTop := by
  refine ⟨?_, rfl, ?_, ?_, ?_⟩
  · show stepEv vp103 (stepEv vp103 (stepEv vp103 (stepEv vp103
      (initLive (-35) 1) Ev.armSuccess) (Ev.sample (-30)))
      (Ev.tick 1000)) (Ev.tick 3000) = liveFinished
    rw [trace_arm, trace_trigger, trace_tick1, trace_tick2]
  · norm_num [vp103, liveFinished, Viewport.maxOffset]
  · show stepEv vp103 (stepEv vp103 (stepEv vp103 (stepEv vp103
      liveFinished Ev.armSuccess) (Ev.sample (-20)))
      (Ev.tick 4000)) (Ev.tick 5000) = liveDone
    rw [trace_rearm, trace_retrigger, trace_tick3, trace_tick4]
  · norm_num [liveFinished, liveDone]

/-- C5 (amended): a sample event never stops or restarts an active scroll
(no re-trigger while Scrolling), and on the leading edge while Idle the
scroll starts at exactly the first crossing sample — with threshold
−35 dB the sequence −50, −40, −30 starts it at the third sample, not
before and not after.  However the code has no Finished state exempt from
triggering: after the scroll stops at the bottom a fresh crossing sample
starts it again (see the counterexample). -/
theorem trigger_starts_once_idle :
    (∀ (vp : Viewport) (s : LiveState) (db : ℚ), s.isScrolling = true →
        (stepEv vp s (Ev.sample db)).isScrolling = true) ∧
    (stepEv vp103 liveArmed (Ev.sample (-50))).isScrolling = false ∧
    (stepEv vp103 (stepEv vp103 liveArmed (Ev.sample (-50)))
        (Ev.sample (-40))).isScrolling = false ∧
    (stepEv vp103 (stepEv vp103 (stepEv vp103 liveArmed (Ev.sample (-50)))
        (Ev.sample (-40))) (Ev.sample (-30))).isScrolling = true := by
  refine ⟨?_, by decide, by decide, by decide⟩
  intro vp s db hs
  show (settleEffects (primEv vp s (Ev.sample db))).isScrolling = true
  have h1 : (primEv vp s (Ev.sample db)).isScrolling = true := by
    simp only [primEv]
    split_ifs <;> exact hs
  exact settleEffects_isScrolling_true _ h1

/-- Witness for C5 (amended): a sample delivered while the concrete
session is scrolling leaves it scrolling. -/
theorem trigger_starts_once_idle_witness :
    (stepEv vp103 liveScrolling (Ev.sample (-30))).isScrolling = true :=
  trigger_starts_once_idle.1 vp103 liveScrolling (-30) rfl

/-- Counterexample to C5 as stated: the session reaches the claimed
Finished situation (stopped within 1 px of the maximum extent), the
monitor re-arms, and the very next crossing sample starts the scroll
again — the Scheduler does re-trigger in the Finished situation. -/
theorem retrigger_after_finish_cex :
    runEvents vp103 (initLive (-35) 1)
        [Ev.armSuccess, Ev.sample (-30), Ev.tick 1000, Ev.tick 3000]
      = liveFinished ∧
    liveFinished.isScrolling = false ∧
    vp103.maxOffset - liveFinished.scrollTop ≤ 1 ∧
    (stepEv vp103 (stepEv vp103 liveFinished Ev.armSuccess)
        (Ev.sample (-20))).isScrolling = true := by
  refine ⟨?_, rfl, by norm_num [vp103, liveFinished, Viewport.maxOffset], ?_⟩
  · show stepEv vp103 (stepEv vp103 (stepEv vp103 (stepEv vp103
      (initLive (-35) 1) Ev.armSuccess) (Ev.sample (-30)))
      (Ev.tick 1000)) (Ev.tick 3000) = liveFinished
    rw [trace_arm, trace_trigger, trace_tick1, trace_tick2]
  · rw [trace_rearm, trace_retrigger]
    rfl

/-- C6 is violated by the code (the claim matches the code's own
"CRITICAL PERFORMANCE FIX" comment, which promises no monitoring while
scrolling): `startMonitoring`'s `getUserMedia` continuation is not
cancelled, so if scrolling starts while acquisition is in flight (here:
the user presses play before granting permission), the later resolution
connects the analyser and starts the `analyze` loop anyway — a reachable
state that is Scrolling with the monitor running, producing loudness state
updates (`currentDB`, even `triggered`) on every sample. -/
theorem monitor_runs_while_scrolling_bug :
    (runEvents vp103 (initLive (-35) 1)
        [Ev.playPause, Ev.armSuccess, Ev.sample (-30)]).isScrolling = true ∧
    (runEvents vp103 (initLive (-35) 1)
        [Ev.playPause, Ev.armSuccess, Ev.sample (-30)]).monitorRunning = true ∧
    (runEvents vp103 (initLive (-35) 1)
        [Ev.playPause, Ev.armSuccess, Ev.sample (-30)]).currentDB = -30 ∧
    (runEvents vp103 (initLive (-35) 1)
        [Ev.playPause, Ev.armSuccess, Ev.sample (-30)]).triggered = true := by
  refine ⟨by decide, by decide, by decide, by decide⟩

/-- Counterexample to C7 as stated: after the trigger started the scroll
(monitor disarmed), a single tap pauses it — and with no fresh arming
request from the user (no Arm event occurs anywhere in the trace) the
monitor effect immediately requests a new device acquisition, because the
standing `isMonitoring` flag was never cleared. -/
theorem auto_rearm_after_pause_cex :
    runEvents vp103 (initLive (-35) 1) [Ev.armSuccess, Ev.sample (-30)]
      = liveScrolling ∧
    liveScrolling.monitorRunning = false ∧
    liveScrolling.pendingStart = false ∧
    (stepEv vp103 liveScrolling Ev.screenTap).isScrolling = false ∧
    (stepEv vp103 liveScrolling Ev.screenTap).pendingStart = true := by
  refine ⟨?_, rfl, rfl, by decide, by decide⟩
  show stepEv vp103 (stepEv vp103 (initLive (-35) 1) Ev.armSuccess)
    (Ev.sample (-30)) = liveScrolling
  rw [trace_arm, trace_trigger]

/-- C7 (amended): after the monitor is disarmed because scrolling started,
it is re-armed automatically as soon as the scroll state leaves Scrolling:
the caller's standing arming flag (`isMonitoring`) is still set, so
pausing immediately re-requests device acquisition with no fresh arming
request.  A fresh request is needed only if the caller disarmed in the
meantime. -/
theorem rearm_automatic_on_pause (vp : Viewport) (s : LiveState)
    (h1 : s.isMonitoring = true) (h2 : s.isScrolling = true)
    (h3 : s.triggered = false) (h4 : s.depEnabled = false) :
    (stepEv vp s Ev.screenTap).isScrolling = false ∧
    (stepEv vp s Ev.screenTap).pendingStart = true ∧
    (stepEv vp s Ev.screenTap).isMonitoring = true := by
  have hstep : stepEv vp s Ev.screenTap
      = settleEffects { s with isScrolling := false } := by
    show settleEffects (primEv vp s Ev.screenTap) = _
    simp [primEv, h2]
  obtain ⟨ktr, ksc⟩ := settleEffects_keepScroll
    { s with isScrolling := false } h3
  refine ⟨?_, ?_, ?_⟩
  · rw [hstep]; exact ksc
  · rw [hstep]
    exact settleEffects_pendingStart_of _ (by simp [shouldMonitor, h1]) h4
  · rw [hstep, settleEffects_isMonitoring]; exact h1

/-- Witness for C7 (amended) at the concrete scrolling session state. -/
theorem rearm_automatic_on_pause_witness :
    (stepEv vp103 liveScrolling Ev.screenTap).isScrolling = false ∧
    (stepEv vp103 liveScrolling Ev.screenTap).pendingStart = true ∧
    (stepEv vp103 liveScrolling Ev.screenTap).isMonitoring = true :=
  rearm_automatic_on_pause vp103 liveScrolling rfl rfl rfl rfl

/-- C8: when the in-flight device acquisition rejects, the catch handler
surfaces the human-readable error (the failed monitor state), the trigger
flag is still false, the monitor is not sampling, the scroll state and
offset are exactly what they were before the failed arm attempt, and the
failure is not fatal — the manual play/pause toggle still works. -/
theorem arm_failure_recoverable (vp : Viewport) (s : LiveState)
    (hp : s.pendingStart = true) (ht : s.triggered = false)
    (hm : s.monitorRunning = false) :
    (stepEv vp s Ev.armFail).errorMsg = some micError ∧
    (stepEv vp s Ev.armFail).triggered = false ∧
    (stepEv vp s Ev.armFail).monitorRunning = false ∧
    (stepEv vp s Ev.armFail).isScrolling = s.isScrolling ∧
    (stepEv vp s Ev.armFail).scrollTop = s.scrollTop ∧
    (stepEv vp (stepEv vp s Ev.armFail) Ev.playPause).isScrolling
      = !s.isScrolling := by
  have hstep : stepEv vp s Ev.armFail
      = settleEffects { s with pendingStart := false, errorMsg := some micError } := by
    show settleEffects (primEv vp s Ev.armFail) = _
    simp [primEv, hp]
  obtain ⟨ktr, ksc⟩ := settleEffects_keepScroll
    { s with pendingStart := false, errorMsg := some micError } ht
  have h2 : (stepEv vp s Ev.armFail).triggered = false := by rw [hstep]; exact ktr
  have h4 : (stepEv vp s Ev.armFail).isScrolling = s.isScrolling := by
    rw [hstep]; exact ksc
  refine ⟨?_, h2, ?_, h4, ?_, ?_⟩
  · rw [hstep, settleEffects_errorMsg]
  · rw [hstep]; exact settleEffects_monitorRunning_false _ hm
  · rw [hstep, settleEffects_scrollTop]
  · have hpp : (stepEv vp (stepEv vp s Ev.armFail) Ev.playPause).isScrolling
        = !(stepEv vp s Ev.armFail).isScrolling := by
      show (settleEffects (primEv vp (stepEv vp s Ev.armFail)
        Ev.playPause)).isScrolling = _
      exact (settleEffects_keepScroll
        { stepEv vp s Ev.armFail with
          isScrolling := !(stepEv vp s Ev.armFail).isScrolling } h2).2
    rw [hpp, h4]

/-- Witness for C8: acquisition fails right after mount — the error is
surfaced, nothing is triggered, the scroll state is untouched (Idle at
offset 0) and pressing play afterwards still starts a manual scroll. -/
theorem arm_failure_recoverable_witness :
    (stepEv vp103 (initLive (-35) 30) Ev.armFail).errorMsg = some micError ∧
    (stepEv vp103 (initLive (-35) 30) Ev.armFail).triggered = false ∧
    (stepEv vp103 (initLive (-35) 30) Ev.armFail).monitorRunning = false ∧
    (stepEv vp103 (initLive (-35) 30) Ev.armFail).isScrolling
      = (initLive (-35) 30).isScrolling ∧
    (stepEv vp103 (initLive (-35) 30) Ev.armFail).scrollTop
      = (initLive (-35) 30).scrollTop ∧
    (stepEv vp103 (stepEv vp103 (initLive (-35) 30) Ev.armFail)
        Ev.playPause).isScrolling = !(initLive (-35) 30).isScrolling :=
  arm_failure_recoverable vp103 (initLive (-35) 30) rfl rfl rfl

/-- C10 (amended): the threshold the `analyze` loop compares against is
the one captured by the first render's closure (the hook's mount), because
the empty-dependency `useCallback` memoizes `startMonitoring` together
with the `analyze` it calls: no hook event ever changes the captured
threshold, every sample is compared against it, and — in genuine contrast —
the scroll speed is re-read from the updated song on every tick, so a
speed change takes effect immediately.  A threshold change therefore has
no effect even after disarming and re-arming (see the counterexample). -/
theorem threshold_captured_at_mount :
    (∀ (h : MonitorHook) (e : HookEv),
        (stepHook h e).threshCaptured = h.threshCaptured) ∧
    (∀ (h : MonitorHook) (d : ℚ), h.running = true →
        (stepHook h (HookEv.sample d)).triggered
          = (if h.threshCaptured < d then true else h.triggered)) ∧
    (∀ (vp : Viewport) (s : LiveState) (v : ℚ),
        (stepEv vp s (Ev.setSpeed v)).speed = v) := by
  refine ⟨?_, ?_, ?_⟩
  · intro h e
    cases e with
    | setEnabled b =>
        simp only [stepHook, hookEffect]
        split_ifs <;> rfl
    | setThreshold q =>
        simp only [stepHook, hookEffect]
        split_ifs <;> rfl
    | armSuccess =>
        simp only [stepHook]
        split_ifs <;> rfl
    | armFail =>
        simp only [stepHook]
        split_ifs <;> rfl
    | sample d => exact stepHook_sample_threshCaptured h d
  · intro h d hr
    simp [stepHook, hr]
  · intro vp s v
    show (settleEffects (primEv vp s (Ev.setSpeed v))).speed = v
    rw [settleEffects_speed]
    rfl

/-- Witness for C10 (amended): changing the threshold prop leaves the
captured threshold alone; a sample against a hook whose captured threshold
is −35 (but whose prop says −10) triggers on −20; and a speed change is
picked up by the session state ticks read. -/
theorem threshold_captured_at_mount_witness :
    (stepHook (initHook true (-35)) (HookEv.setThreshold (-10))).threshCaptured
      = (initHook true (-35)).threshCaptured ∧
    (stepHook ⟨true, -10, -35, true, false, false, -100, none, true⟩
        (HookEv.sample (-20))).triggered
      = (if ((-35 : ℚ) < -20) then true else false) ∧
    (stepEv vp103 liveArmed (Ev.setSpeed 5)).speed = 5 := by
  obtain ⟨p1, p2, p3⟩ := threshold_captured_at_mount
  exact ⟨p1 _ _, p2 ⟨true, -10, -35, true, false, false, -100, none, true⟩ (-20) rfl,
    p3 vp103 liveArmed 5⟩

/-- Counterexample to C10 as stated: mount with threshold −35, change the
threshold prop to −10, disarm, re-arm, acquisition succeeds — so the
threshold "in effect when monitoring started" for this session is −10 —
and deliver a −20 dB sample.  The claim then demands no trigger (−20 does
not exceed −10), but the code compares against the stale mount-captured
−35 and sets the trigger. -/
theorem threshold_stale_after_rearm_cex :
    (runHook (initHook true (-35))
        [HookEv.armSuccess, HookEv.setThreshold (-10), HookEv.setEnabled false,
         HookEv.setEnabled true, HookEv.armSuccess]).threshProp = -10 ∧
    (runHook (initHook true (-35))
        [HookEv.armSuccess, HookEv.setThreshold (-10), HookEv.setEnabled false,
         HookEv.setEnabled true, HookEv.armSuccess]).running = true ∧
    ¬ ((-10 : ℚ) < -20) ∧
    (runHook (initHook true (-35))
        [HookEv.armSuccess, HookEv.setThreshold (-10), HookEv.setEnabled false,
         HookEv.setEnabled true, HookEv.armSuccess, HookEv.sample (-20)]).triggered
      = true := by
  refine ⟨by decide, by decide, by decide, by decide⟩
